import Mathlib

/-!
Verification of the grpcServiceSSO authentication service.

The development shallowly embeds the two source files of the repository:
the authentication core (package `auth`, second part of
`internal/app/grpc/app.go`: `Auth.Login`, `Auth.RegisterNewUser`,
`Auth.IsAdmin`) and the request boundary (package `authgrpc`:
`serverAPI.Login`, `serverAPI.Register`, `serverAPI.isAdmin`).

Go errors are modelled as a small tree: each `errors.New` sentinel of the
program is one constructor of `Sentinel`; `fmt.Errorf("%s: %w", op, err)`
is the `wrap` constructor; non-sentinel library errors (validator output,
bcrypt mismatch, driver errors) are `plain`. Go's `errors.Is(err, target)`
against a sentinel target unwraps the single-`%w` chain and compares
identity, which `errorsIs` reproduces. Two `errors.New` values with the
same message (e.g. `auth.ErrUserExists` and `storage.ErrUserExists`) are
distinct identities in Go, hence distinct `Sentinel` constructors here.

Collaborators that live outside the given sources (the sqlite storage
layer, bcrypt, the jwt token builder, the go-playground email validator)
are parameters: structures of function fields over which the theorems
quantify. Logging and `context.Context` carry no data the control flow
reads and are omitted.
-/

/-- The named `errors.New` sentinels of the program, one constructor per
identity. `storage.*` sentinels belong to package `sso/internal/storage`,
`auth*` sentinels to package `auth` (`ErrInvalidCredentials`,
`ErrInvalidAppId`, `ErrUserExists` in `app.go`). -/
inductive Sentinel where
  | storageUserNotFound
  | storageAppNotFound
  | storageUserExists
  | authInvalidCredentials
  | authInvalidAppId
  | authUserExists
deriving DecidableEq, Repr

/-- A Go error value as the program builds them: a named sentinel, an
`fmt.Errorf` wrap with a single `%w`, or a non-sentinel error carrying
only a message. -/
inductive GoError where
  | sentinel (s : Sentinel)
  | wrap (op : String) (e : GoError)
  | plain (msg : String)
deriving DecidableEq, Repr

/-- Go's `errors.Is(err, target)` for a sentinel target: unwrap the
`%w` chain and compare identity. -/
def errorsIs : GoError → Sentinel → Bool
  | .sentinel s, t => s == t
  | .wrap _ e, t => errorsIs e t
  | .plain _, _ => false

/-- Modelled from the spec: `models.User` (package
`sso/internal/domain/models` is not under src/). The spec's data model
gives a user an integer identifier, an email, and a password hash, which
is an opaque byte sequence; the core reads only `PassHash`. -/
structure UserModel where
  ID : Int
  Email : String
  PassHash : List Nat
deriving DecidableEq, Repr

/-- Modelled from the spec: `models.App` (package
`sso/internal/domain/models` is not under src/). The spec's data model
gives an application an identifier, a name, and a per-application signing
secret; the core passes it through to the token issuer unread. -/
structure AppModel where
  ID : Int
  Name : String
  Secret : String
deriving DecidableEq, Repr

/-- The `UserSaver` collaborator contract: `SaveUser(email, passHash)`
returns a `(uid, err)` pair. -/
structure UserSaver where
  SaveUser : String → List Nat → Int × Option GoError

/-- The `UserProvider` collaborator contract: `User(email)` and
`IsAdmin(userId)`, each returning a `(value, err)` pair. -/
structure UserProvider where
  User : String → UserModel × Option GoError
  IsAdmin : Int → Bool × Option GoError

/-- The `AppProvider` collaborator contract: `App(appId)` returning a
`(app, err)` pair. -/
structure AppProvider where
  App : Int → AppModel × Option GoError

/-- The library functions the core calls that are implemented outside the
given sources: `bcrypt.GenerateFromPassword` (digest or error),
`bcrypt.CompareHashAndPassword` (an error exactly on mismatch or
malformed digest, per its contract), and `jwt.NewToken` from the
repository's `sso/internal/lib/jwt` (modelled from the spec: the token
issuer signs claims with the app secret and returns a signed token string
or an error). -/
structure Env where
  GenerateFromPassword : String → (List Nat) × Option GoError
  CompareHashAndPassword : List Nat → String → Option GoError
  NewToken : UserModel → AppModel → Int → String × Option GoError

/-- The `Auth` service struct of package `auth`: its collaborator fields
and the configured token time-to-live (the logger field is omitted). -/
structure Auth where
  userSaver : UserSaver
  userProvider : UserProvider
  appProvider : AppProvider
  tokenTTL : Int

/-- `Auth.Login` from `app.go`: look the user up by email; on a lookup
error return `ErrInvalidCredentials` when the error `errors.Is`
`ErrInvalidCredentials`, otherwise wrap and return the lookup error
itself; then compare the stored hash with the password, a mismatch
returning `ErrInvalidCredentials`; then fetch the app and issue the
token, each failure wrapped and propagated. Every failing path returns
the empty token. -/
def Auth.Login (env : Env) (a : Auth) (email password : String)
    (appId : Int) : String × Option GoError :=
  match a.userProvider.User email with
  | (_, some err) =>
    if errorsIs err .authInvalidCredentials then
      ("", some (.wrap "auth.Login" (.sentinel .authInvalidCredentials)))
    else
      ("", some (.wrap "auth.Login" err))
  | (user, none) =>
    match env.CompareHashAndPassword user.PassHash password with
    | some _ => ("", some (.wrap "auth.Login" (.sentinel .authInvalidCredentials)))
    | none =>
      match a.appProvider.App appId with
      | (_, some err) => ("", some (.wrap "auth.Login" err))
      | (app, none) =>
        match env.NewToken user app a.tokenTTL with
        | (_, some err) => ("", some (.wrap "auth.Login" err))
        | (token, none) => (token, none)

/-- `Auth.RegisterNewUser` from `app.go`: hash the password, a hasher
failure returning `ErrUserExists` (the source's literal behaviour); then
save the user, any save error being wrapped and returned whether or not
it `errors.Is` `storage.ErrUserExists` (the branch differs only in
logging). Every failing path returns id 0. -/
def Auth.RegisterNewUser (env : Env) (a : Auth) (email password : String) :
    Int × Option GoError :=
  match env.GenerateFromPassword password with
  | (_, some _) =>
    (0, some (.wrap "auth.RegisterNewUser" (.sentinel .authUserExists)))
  | (passHash, none) =>
    match a.userSaver.SaveUser email passHash with
    | (_, some err) =>
      if errorsIs err .storageUserExists then
        (0, some (.wrap "auth.RegisterNewUser" err))
      else
        (0, some (.wrap "auth.RegisterNewUser" err))
    | (id, none) => (id, none)

/-- `Auth.IsAdmin` from `app.go`: query the provider; a provider error
that `errors.Is` `storage.ErrAppNotFound` is turned into
`ErrInvalidAppId`, any other provider error is wrapped and propagated.
Every failing path returns false. -/
def Auth.IsAdmin (a : Auth) (userId : Int) : Bool × Option GoError :=
  match a.userProvider.IsAdmin userId with
  | (_, some err) =>
    if errorsIs err .storageAppNotFound then
      (false, some (.wrap "Auth.IsAmin" (.sentinel .authInvalidAppId)))
    else
      (false, some (.wrap "Auth.IsAmin" err))
  | (isAdmin, none) => (isAdmin, none)

/-- gRPC status codes the boundary uses. -/
inductive Code where
  | invalidArgument
  | alreadyExists
  | notFound
  | internal
deriving DecidableEq, Repr

/-- A gRPC handler outcome: either the success payload or
`status.Error(code, message)`. -/
abbrev GrpcResult (α : Type) := Except (Code × String) α

/-- The transport `LoginRequest` as the handler reads it (`AppId` is an
int32 in the proto, widened to int64 before the core call; modelled as
`Int` throughout since no arithmetic is performed on it). -/
structure LoginRequest where
  Email : String
  Password : String
  AppID : Int
deriving DecidableEq, Repr

/-- The transport `RegisterRequest` as the handler reads it. -/
structure RegisterRequest where
  Email : String
  Password : String
deriving DecidableEq, Repr

/-- The transport `IsAdminRequest` as the handler reads it. -/
structure IsAdminRequest where
  UserID : Int
deriving DecidableEq, Repr

/-- go-playground `validate.Struct` on `LoginReq` with tags
`Email: required,email`, `Password: required`, `AppID: required,gt=0`:
`required` fails on the zero value ("" or 0), `gt=0` on a non-positive
integer, and the `email` tag applies the library's syntactic address
check, which lives outside this repository and is the parameter
`emailOk`. Returns the validation error message, or none when the struct
is valid. -/
def validateLoginReq (emailOk : String → Bool) (r : LoginRequest) :
    Option String :=
  if r.Email = "" then some "Key: LoginReq.Email Error:Field validation for Email failed on the required tag"
  else if !emailOk r.Email then some "Key: LoginReq.Email Error:Field validation for Email failed on the email tag"
  else if r.Password = "" then some "Key: LoginReq.Password Error:Field validation for Password failed on the required tag"
  else if r.AppID = 0 then some "Key: LoginReq.AppID Error:Field validation for AppID failed on the required tag"
  else if r.AppID ≤ 0 then some "Key: LoginReq.AppID Error:Field validation for AppID failed on the gt tag"
  else none

/-- go-playground `validate.Struct` on `RegisterReq` with tags
`Email: required,email`, `Password: required`. -/
def validateRegisterReq (emailOk : String → Bool) (r : RegisterRequest) :
    Option String :=
  if r.Email = "" then some "Key: RegisterReq.Email Error:Field validation for Email failed on the required tag"
  else if !emailOk r.Email then some "Key: RegisterReq.Email Error:Field validation for Email failed on the email tag"
  else if r.Password = "" then some "Key: RegisterReq.Password Error:Field validation for Password failed on the required tag"
  else none

/-- go-playground `validate.Struct` on `AdminCheckReq` with tag
`UserID: required,gt=0`. -/
def validateAdminCheckReq (r : IsAdminRequest) : Option String :=
  if r.UserID = 0 then some "Key: AdminCheckReq.UserID Error:Field validation for UserID failed on the required tag"
  else if r.UserID ≤ 0 then some "Key: AdminCheckReq.UserID Error:Field validation for UserID failed on the gt tag"
  else none

/-- `serverAPI.Login` from the boundary: validate the decoded `LoginReq`
(failure → `codes.InvalidArgument` with the validator message), call the
core, and map a core error to a status: the source returns
`status.Error(codes.InvalidArgument, "internal error")` both when the
error `errors.Is` `auth.ErrInvalidCredentials` and in the fallthrough
branch. -/
def serverAPI.Login (emailOk : String → Bool) (env : Env) (a : Auth)
    (req : LoginRequest) : GrpcResult String :=
  match validateLoginReq emailOk req with
  | some msg => .error (.invalidArgument, msg)
  | none =>
    match Auth.Login env a req.Email req.Password req.AppID with
    | (_, some err) =>
      if errorsIs err .authInvalidCredentials then
        .error (.invalidArgument, "internal error")
      else
        .error (.invalidArgument, "internal error")
    | (token, none) => .ok token

/-- `serverAPI.Register` from the boundary: validate the decoded
`RegisterReq`, call the core, map an error that `errors.Is`
`auth.ErrUserExists` to `codes.AlreadyExists` and any other error to
`codes.Internal` with an opaque message. -/
def serverAPI.Register (emailOk : String → Bool) (env : Env) (a : Auth)
    (req : RegisterRequest) : GrpcResult Int :=
  match validateRegisterReq emailOk req with
  | some msg => .error (.invalidArgument, msg)
  | none =>
    match Auth.RegisterNewUser env a req.Email req.Password with
    | (_, some err) =>
      if errorsIs err .authUserExists then
        .error (.alreadyExists, "user already exists")
      else
        .error (.internal, "internal error")
    | (userID, none) => .ok userID

/-- `serverAPI.isAdmin` from the boundary: validate the decoded
`AdminCheckReq`, call the core, map an error that `errors.Is`
`storage.ErrUserNotFound` to `codes.NotFound` and any other error to
`codes.Internal` with an opaque message. -/
def serverAPI.isAdmin (a : Auth) (req : IsAdminRequest) :
    GrpcResult Bool :=
  match validateAdminCheckReq req with
  | some msg => .error (.invalidArgument, msg)
  | none =>
    match Auth.IsAdmin a req.UserID with
    | (_, some err) =>
      if errorsIs err .storageUserNotFound then
        .error (.notFound, "user not found")
      else
        .error (.internal, "internal error")
    | (isAdmin, none) => .ok isAdmin

/-!
Concrete fixtures used to evaluate the handlers at specific inputs.
The digest function and the email check stand in for the external bcrypt
and validator libraries only inside these fixtures; the theorems about
the program quantify over arbitrary `Env` and email checks.
-/

/-- A stand-in digest for fixtures: the code points of the password. -/
def fakeDigest (password : String) : List Nat :=
  password.data.map Char.toNat

/-- Fixture email check: the string has at least one at-sign. -/
def sampleEmailOk (s : String) : Bool :=
  s.data.contains '@'

/-- Fixture environment: hashing succeeds, comparison matches exactly the
digest of the same password, token signing succeeds. -/
def envOk : Env where
  GenerateFromPassword := fun p => (fakeDigest p, none)
  CompareHashAndPassword := fun d p =>
    if d = fakeDigest p then none
    else some (.plain "crypto/bcrypt: hashedPassword is not the hash of the given password")
  NewToken := fun _ _ _ => ("signed-token", none)

/-- Fixture environment whose hasher fails. -/
def envBadHash : Env where
  GenerateFromPassword := fun _ => ([], some (.plain "bcrypt: catastrophic internal failure"))
  CompareHashAndPassword := fun _ _ => none
  NewToken := fun _ _ _ => ("signed-token", none)

/-- Fixture registered user. -/
def aliceUser : UserModel where
  ID := 1
  Email := "alice@example.com"
  PassHash := fakeDigest "hunter2"

/-- Fixture provider with exactly one registered user. -/
def registeredProvider : UserProvider where
  User := fun e =>
    if e = aliceUser.Email then (aliceUser, none)
    else ({ ID := 0, Email := "", PassHash := [] },
      some (.wrap "storage.sqlite.User" (.sentinel .storageUserNotFound)))
  IsAdmin := fun _ => (false, none)

/-- Fixture provider for which every email lookup reports not-found. -/
def ghostProvider : UserProvider where
  User := fun _ => ({ ID := 0, Email := "", PassHash := [] },
    some (.wrap "storage.sqlite.User" (.sentinel .storageUserNotFound)))
  IsAdmin := fun _ => (false, none)

/-- Fixture saver that accepts every user. -/
def okSaver : UserSaver where
  SaveUser := fun _ _ => (7, none)

/-- Fixture saver that reports a uniqueness violation on every save, the
way the sqlite layer surfaces a duplicate email: an operation wrap around
the `storage.ErrUserExists` sentinel. -/
def dupSaver : UserSaver where
  SaveUser := fun _ _ =>
    (0, some (.wrap "storage.sqlite.SaveUser" (.sentinel .storageUserExists)))

/-- Fixture app provider with exactly one tenant application. -/
def appOkProvider : AppProvider where
  App := fun i =>
    if i = 1 then ({ ID := 1, Name := "web", Secret := "secret" }, none)
    else ({ ID := 0, Name := "", Secret := "" },
      some (.wrap "storage.sqlite.App" (.sentinel .storageAppNotFound)))

/-- Fixture service: registered user, accepting saver, one app. -/
def authReg : Auth where
  userSaver := okSaver
  userProvider := registeredProvider
  appProvider := appOkProvider
  tokenTTL := 3600

/-- Fixture service whose saver reports a uniqueness violation. -/
def authDup : Auth where
  userSaver := dupSaver
  userProvider := registeredProvider
  appProvider := appOkProvider
  tokenTTL := 3600

/-- Fixture service whose user lookups report not-found. -/
def authGhost : Auth where
  userSaver := okSaver
  userProvider := ghostProvider
  appProvider := appOkProvider
  tokenTTL := 3600

/-- Modelled from the spec: the user-not-found failure that
`UserProvider.IsAdmin` reports. The storage implementation is not under
src/; spec §4.3 records that the source maps the provider's
user-not-found condition onto the invalid-app-id class and §9 flags that
conflation, so the missing storage layer signals a missing user with an
error wrapping its app-not-found sentinel — exactly what the core's
`errors.Is(err, storage.ErrAppNotFound)` test matches. -/
def isAdminUserNotFound : GoError :=
  .wrap "storage.sqlite.IsAdmin" (.sentinel .storageAppNotFound)

/-- Fixture provider whose admin check reports the user missing. -/
def missingUserProvider : UserProvider where
  User := fun _ => ({ ID := 0, Email := "", PassHash := [] },
    some (.wrap "storage.sqlite.User" (.sentinel .storageUserNotFound)))
  IsAdmin := fun _ => (false, some isAdminUserNotFound)

/-- Fixture service whose admin check reports the user missing. -/
def authMissingUser : Auth where
  userSaver := okSaver
  userProvider := missingUserProvider
  appProvider := appOkProvider
  tokenTTL := 3600

/-- C1: the claim says a uniqueness violation from the saver reaches the
caller as the already-exists status class. It does not: the core wraps
the raw `storage.ErrUserExists` error, the boundary matches the distinct
sentinel `auth.ErrUserExists`, so a duplicate registration is answered
with `codes.Internal`. Evaluated at a valid request against a saver that
reports the duplicate; the last conjunct shows the error the boundary
receives does carry the storage sentinel, so only the sentinel mismatch
is to blame. -/
theorem register_duplicate_user_yields_internal_status :
    serverAPI.Register sampleEmailOk envOk authDup
      { Email := "bob@example.com", Password := "hunter2" }
      = .error (Code.internal, "internal error")
    ∧ errorsIs (.wrap "auth.RegisterNewUser"
        (.wrap "storage.sqlite.SaveUser" (.sentinel .storageUserExists)))
        .authUserExists = false
    ∧ errorsIs (.wrap "auth.RegisterNewUser"
        (.wrap "storage.sqlite.SaveUser" (.sentinel .storageUserExists)))
        .storageUserExists = true :=
  ⟨rfl, rfl, rfl⟩

/-- C2: the claim says a not-found answer from the user provider makes
the core return the InvalidCredentials kind and never the raw provider
error. It does not: the lookup-error branch tests
`errors.Is(err, ErrInvalidCredentials)`, which a provider not-found
error (a wrap of `storage.ErrUserNotFound`) never satisfies, so the core
wraps and returns the raw provider error. Evaluated at a provider that
reports not-found. -/
theorem login_unknown_email_propagates_provider_error :
    Auth.Login envOk authGhost "ghost@example.com" "pw" 1
      = ("", some (.wrap "auth.Login"
          (.wrap "storage.sqlite.User" (.sentinel .storageUserNotFound))))
    ∧ errorsIs (.wrap "auth.Login"
        (.wrap "storage.sqlite.User" (.sentinel .storageUserNotFound)))
        .authInvalidCredentials = false
    ∧ errorsIs (.wrap "auth.Login"
        (.wrap "storage.sqlite.User" (.sentinel .storageUserNotFound)))
        .storageUserNotFound = true :=
  ⟨rfl, rfl, rfl⟩

/-- C3: the claim says a hasher failure is reported as a could-not-register
kind distinct from UserAlreadyExists. It is not: the hasher-failure
branch of `RegisterNewUser` returns `ErrUserExists` itself, so the error
satisfies `errors.Is(err, ErrUserExists)`. Evaluated with a failing
hasher. -/
theorem register_hasher_failure_yields_user_exists_error :
    Auth.RegisterNewUser envBadHash authReg "bob@example.com" "pw"
      = (0, some (.wrap "auth.RegisterNewUser" (.sentinel .authUserExists)))
    ∧ errorsIs (.wrap "auth.RegisterNewUser" (.sentinel .authUserExists))
        .authUserExists = true :=
  ⟨rfl, rfl⟩

/-- C4: the claim says a core failure other than InvalidCredentials is
answered with the internal status class. It is not: both error branches
of the boundary `Login` handler return
`status.Error(codes.InvalidArgument, "internal error")`, so the status
class is invalid-argument. Evaluated at a validated request whose core
call fails with the (non-InvalidCredentials) raw not-found error. -/
theorem login_core_failure_yields_invalid_argument_status :
    serverAPI.Login sampleEmailOk envOk authGhost
      { Email := "ghost@example.com", Password := "pw", AppID := 1 }
      = .error (Code.invalidArgument, "internal error")
    ∧ errorsIs ((Auth.Login envOk authGhost "ghost@example.com" "pw" 1).2.getD
        (.plain "")) .authInvalidCredentials = false :=
  ⟨rfl, rfl⟩

/-- C7: the claim says an admin check whose provider reports the user
missing is answered with the not-found status class. It is not: the core
turns the provider's error into `ErrInvalidAppId`, which fails the
boundary's `errors.Is(err, storage.ErrUserNotFound)` test, so the caller
receives `codes.Internal`. Evaluated at a valid request against the
provider that reports the user missing. -/
theorem isAdmin_user_not_found_yields_internal_status :
    serverAPI.isAdmin authMissingUser { UserID := 42 }
      = .error (Code.internal, "internal error")
    ∧ errorsIs (.wrap "Auth.IsAmin" (.sentinel .authInvalidAppId))
        .storageUserNotFound = false :=
  ⟨rfl, rfl⟩

/-- C8: when the user lookup succeeds and the hash comparison reports a
mismatch, `Auth.Login` returns the empty token together with the wrapped
`ErrInvalidCredentials` sentinel. -/
theorem login_password_mismatch_returns_invalid_credentials
    (env : Env) (a : Auth) (email password : String) (appId : Int)
    (u : UserModel) (hu : a.userProvider.User email = (u, none))
    (e : GoError)
    (hm : env.CompareHashAndPassword u.PassHash password = some e) :
    Auth.Login env a email password appId
      = ("", some (.wrap "auth.Login" (.sentinel .authInvalidCredentials))) := by
  unfold Auth.Login
  rw [hu]
  simp only [hm]

/-- Witness for C8: the fixture user with a wrong password. -/
theorem login_password_mismatch_returns_invalid_credentials_witness :
    Auth.Login envOk authReg "alice@example.com" "wrong" 1
      = ("", some (.wrap "auth.Login" (.sentinel .authInvalidCredentials))) :=
  login_password_mismatch_returns_invalid_credentials envOk authReg
    "alice@example.com" "wrong" 1 aliceUser rfl
    (.plain "crypto/bcrypt: hashedPassword is not the hash of the given password")
    rfl

/-- C6: when the provider's admin check reports the user missing — the
spec-modelled `isAdminUserNotFound` error, whose chain carries the
`storage.ErrAppNotFound` sentinel — `Auth.IsAdmin` returns false together
with the wrapped `ErrInvalidAppId` sentinel; the final conjunct records
that this error is of the InvalidAppID kind. -/
theorem isAdmin_user_not_found_returns_invalid_app_id
    (a : Auth) (userId : Int) (b : Bool)
    (h : a.userProvider.IsAdmin userId = (b, some isAdminUserNotFound)) :
    Auth.IsAdmin a userId
      = (false, some (.wrap "Auth.IsAmin" (.sentinel .authInvalidAppId)))
    ∧ errorsIs (.wrap "Auth.IsAmin" (.sentinel .authInvalidAppId))
        .authInvalidAppId = true := by
  constructor
  · unfold Auth.IsAdmin
    rw [h]
    rfl
  · rfl

/-- Witness for C6: the fixture provider reporting the user missing. -/
theorem isAdmin_user_not_found_returns_invalid_app_id_witness :
    Auth.IsAdmin authMissingUser 42
      = (false, some (.wrap "Auth.IsAmin" (.sentinel .authInvalidAppId)))
    ∧ errorsIs (.wrap "Auth.IsAmin" (.sentinel .authInvalidAppId))
        .authInvalidAppId = true :=
  isAdmin_user_not_found_returns_invalid_app_id authMissingUser 42 false rfl

/-- C5: for a validated request, a run against a service where the email
is registered but the password mismatches and a run against a service
where the provider reports the email not-found produce the very same
observable outcome — `status.Error(codes.InvalidArgument, "internal
error")` in both — and the wrong-password run's core error is the
InvalidCredentials kind. -/
theorem login_failure_modes_indistinguishable
    (emailOk : String → Bool) (env1 env2 : Env) (a1 a2 : Auth)
    (req : LoginRequest) (hv : validateLoginReq emailOk req = none)
    (u : UserModel) (h1 : a1.userProvider.User req.Email = (u, none))
    (e1 : GoError)
    (hm : env1.CompareHashAndPassword u.PassHash req.Password = some e1)
    (b : UserModel) (e2 : GoError)
    (_hnf : errorsIs e2 .storageUserNotFound = true)
    (h2 : a2.userProvider.User req.Email = (b, some e2)) :
    (Auth.Login env1 a1 req.Email req.Password req.AppID).2
        = some (.wrap "auth.Login" (.sentinel .authInvalidCredentials))
    ∧ serverAPI.Login emailOk env1 a1 req
        = .error (Code.invalidArgument, "internal error")
    ∧ serverAPI.Login emailOk env2 a2 req
        = .error (Code.invalidArgument, "internal error") := by
  have hcore1 : Auth.Login env1 a1 req.Email req.Password req.AppID
      = ("", some (.wrap "auth.Login" (.sentinel .authInvalidCredentials))) := by
    unfold Auth.Login
    rw [h1]
    simp only [hm]
  refine ⟨by rw [hcore1], ?_, ?_⟩
  · unfold serverAPI.Login
    rw [hv, hcore1]
    rfl
  · unfold serverAPI.Login Auth.Login
    rw [hv, h2]
    cases hb : errorsIs e2 .authInvalidCredentials <;> simp [errorsIs, hb]

/-- Witness for C5: the fixture registered user with a wrong password in
one run, a not-found provider in the other. -/
theorem login_failure_modes_indistinguishable_witness :
    (Auth.Login envOk authReg "alice@example.com" "wrong" 1).2
        = some (.wrap "auth.Login" (.sentinel .authInvalidCredentials))
    ∧ serverAPI.Login sampleEmailOk envOk authReg
        { Email := "alice@example.com", Password := "wrong", AppID := 1 }
        = .error (Code.invalidArgument, "internal error")
    ∧ serverAPI.Login sampleEmailOk envOk authGhost
        { Email := "alice@example.com", Password := "wrong", AppID := 1 }
        = .error (Code.invalidArgument, "internal error") :=
  login_failure_modes_indistinguishable sampleEmailOk envOk envOk
    authReg authGhost
    { Email := "alice@example.com", Password := "wrong", AppID := 1 }
    rfl aliceUser rfl
    (.plain "crypto/bcrypt: hashedPassword is not the hash of the given password")
    rfl { ID := 0, Email := "", PassHash := [] }
    (.wrap "storage.sqlite.User" (.sentinel .storageUserNotFound))
    rfl rfl

/-- C9: a login request with an empty password, an empty email, an email
the syntactic check rejects, or a non-positive appID fails boundary
validation, and the handler answers `codes.InvalidArgument` with the
validator message for every environment and every core service — the
outcome does not depend on the Authentication Core at all, which is the
observable form of the core never being invoked. -/
theorem login_validation_failure_rejected_without_core
    (emailOk : String → Bool) (req : LoginRequest)
    (h : req.Password = "" ∨ req.Email = "" ∨ emailOk req.Email = false
      ∨ req.AppID ≤ 0) :
    (validateLoginReq emailOk req).isSome = true
    ∧ ∀ (env : Env) (a : Auth), serverAPI.Login emailOk env a req
        = .error (Code.invalidArgument,
            (validateLoginReq emailOk req).getD "") := by
  have hv : ∃ m, validateLoginReq emailOk req = some m := by
    unfold validateLoginReq
    split_ifs with h1 h2 h3 h4 h5
    · exact ⟨_, rfl⟩
    · exact ⟨_, rfl⟩
    · exact ⟨_, rfl⟩
    · exact ⟨_, rfl⟩
    · exact ⟨_, rfl⟩
    · rcases h with hp | he | hec | ha
      · exact absurd hp h3
      · exact absurd he h1
      · exact absurd (by simp [hec]) h2
      · exact absurd ha h5
  obtain ⟨m, hm⟩ := hv
  refine ⟨by simp [hm], ?_⟩
  intro env a
  unfold serverAPI.Login
  rw [hm]
  rfl

/-- Witness for C9: an empty password with the fixture email check; the
conclusion is instantiated at the fixture environment and service. -/
theorem login_validation_failure_rejected_without_core_witness :
    serverAPI.Login sampleEmailOk envOk authReg
      { Email := "alice@example.com", Password := "", AppID := 1 }
      = .error (Code.invalidArgument,
          (validateLoginReq sampleEmailOk
            { Email := "alice@example.com", Password := "", AppID := 1 }).getD "") :=
  (login_validation_failure_rejected_without_core sampleEmailOk
    { Email := "alice@example.com", Password := "", AppID := 1 }
    (Or.inl rfl)).2 envOk authReg

/-- C10: whenever a core operation's error component is non-nil, the
success component is the zero value of its type: `Login` the empty
string, `RegisterNewUser` the id 0, `IsAdmin` false. -/
theorem core_error_implies_zero_result
    (env : Env) (a : Auth) (email password : String) (appId userId : Int) :
    ((Auth.Login env a email password appId).2.isSome = true →
        (Auth.Login env a email password appId).1 = "")
    ∧ ((Auth.RegisterNewUser env a email password).2.isSome = true →
        (Auth.RegisterNewUser env a email password).1 = 0)
    ∧ ((Auth.IsAdmin a userId).2.isSome = true →
        (Auth.IsAdmin a userId).1 = false) := by
  refine ⟨?_, ?_, ?_⟩
  · unfold Auth.Login
    split
    · split <;> simp
    · split
      · simp
      · split
        · simp
        · split <;> simp
  · unfold Auth.RegisterNewUser
    split
    · simp
    · split
      · split <;> simp
      · simp
  · unfold Auth.IsAdmin
    split
    · split <;> simp
    · simp

/-- Witness for C10: each operation evaluated at a fixture input on which
it fails. -/
theorem core_error_implies_zero_result_witness :
    (Auth.Login envOk authGhost "ghost@example.com" "pw" 1).1 = ""
    ∧ (Auth.RegisterNewUser envBadHash authReg "bob@example.com" "pw").1 = 0
    ∧ (Auth.IsAdmin authMissingUser 42).1 = false :=
  ⟨(core_error_implies_zero_result envOk authGhost "ghost@example.com"
      "pw" 1 42).1 rfl,
   (core_error_implies_zero_result envBadHash authReg "bob@example.com"
      "pw" 1 42).2.1 rfl,
   (core_error_implies_zero_result envOk authMissingUser "bob@example.com"
      "pw" 1 42).2.2 rfl⟩
